import Mathlib

/-!
Verification of the Configuration Resolution & Change-Application Engine
of the OpenHands runtime-selector feature, together with two frontend
helpers (`RepoConnector` runtime dispatch and `useFolderPicker`).

The engine (Source Loaders, Key Classifier, Resolver, Validator, Change
Applier, Diagnostics Aggregator) is embedded as pure Lean functions over
association-list configuration layers.  Frontend helpers are embedded
directly from their TypeScript sources.
-/

namespace OpenHands

/-- A configuration value: the declared value types are bool, int, float
and string; floats do not occur in any key the claims touch and are kept
as their string spelling. -/
inductive Value where
  | vStr (s : String)
  | vBool (b : Bool)
  | vInt (n : Int)
  deriving DecidableEq, Repr

/-- The four configuration source layers, in precedence order
default < user < environment < cli. -/
inductive Source where
  | default
  | user
  | environment
  | cli
  deriving DecidableEq, Repr

/-- Hot (live-reloadable) vs cold (restart-requiring) classification. -/
inductive KeyClass where
  | hot
  | cold
  deriving DecidableEq, Repr

/-- Classifier entry for one key: classification, sensitivity flag and
the built-in default value. -/
structure KeyInfo where
  kClass : KeyClass
  sensitive : Bool
  defaultValue : Value
  deriving DecidableEq, Repr

/-- Modelled from the spec: the static Key Classifier table (§4.2) with
the key universe taken from the cold/hot key lists in
RUNTIME_SELECTOR_FEATURE.md ("Configuration Key Classification") and the
config-loader plan.  `llm.api_base` is the key flagged sensitive. -/
def classifierTable : List (String × KeyInfo) :=
  [ ("runtime.environment",        ⟨.cold, false, .vStr "docker"⟩),
    ("runtime.local.project_root", ⟨.cold, false, .vStr ""⟩),
    ("runtime.base_image",         ⟨.cold, false, .vStr "openhands-base"⟩),
    ("runtime.platform",           ⟨.cold, false, .vStr "linux/amd64"⟩),
    ("security.sandbox_mode",      ⟨.cold, false, .vBool true⟩),
    ("llm.api_base",               ⟨.cold, true,  .vStr ""⟩),
    ("server.port",                ⟨.cold, false, .vInt 3000⟩),
    ("server.host",                ⟨.cold, false, .vStr "127.0.0.1"⟩),
    ("llm.model",                  ⟨.hot,  false, .vStr "claude-sonnet"⟩),
    ("llm.temperature",            ⟨.hot,  false, .vStr "0.0"⟩),
    ("llm.max_tokens",             ⟨.hot,  false, .vInt 4096⟩),
    ("agent.memory_enabled",       ⟨.hot,  false, .vBool false⟩),
    ("agent.max_iterations",       ⟨.hot,  false, .vInt 100⟩),
    ("ui.theme",                   ⟨.hot,  false, .vStr "dark"⟩),
    ("ui.language",                ⟨.hot,  false, .vStr "en"⟩),
    ("logging.level",              ⟨.hot,  false, .vStr "info"⟩),
    ("workspace.mount_path",       ⟨.hot,  false, .vStr "/workspace"⟩) ]

/-- The classifier's key universe. -/
def classifierKeys : List String := classifierTable.map (·.1)

/-- Classifier lookup. -/
def keyInfo (k : String) : Option KeyInfo :=
  classifierTable.lookup k

/-- A key is cold when the classifier says so. -/
def isCold (k : String) : Bool :=
  match keyInfo k with
  | some i => i.kClass = .cold
  | none => false

/-- A key is flagged sensitive when the classifier says so. -/
def isSensitive (k : String) : Bool :=
  match keyInfo k with
  | some i => i.sensitive
  | none => false

/-- A configuration layer: a named raw key/value mapping, kept as an
association list (first binding wins on lookup). -/
abbrev ConfigLayer : Type := List (String × Value)

/-- Layer lookup. -/
def ConfigLayer.find (l : ConfigLayer) (k : String) : Option Value :=
  List.lookup k l

/-- The four input layers of one resolution pass. -/
structure Layers where
  dflt : ConfigLayer
  user : ConfigLayer
  env  : ConfigLayer
  cli  : ConfigLayer

/-- One entry of the merged configuration: key, resolved value, and the
winning source layer. -/
structure EffEntry where
  key : String
  value : Value
  source : Source
  deriving DecidableEq, Repr

/-- The merged effective configuration: one entry per classifier key. -/
abbrev EffectiveConfig : Type := List EffEntry

/-- Modelled from the spec: for one key, scan the four layers from
lowest to highest precedence and take the last layer that defines a
value; a key defined in no layer takes the classifier default (§4.3). -/
def resolveKey (ls : Layers) (k : String) (d : Value) : Value × Source :=
  [ (ls.dflt, Source.default), (ls.user, Source.user),
    (ls.env, Source.environment), (ls.cli, Source.cli) ].foldl
    (fun acc p =>
      match p.1.find k with
      | some v => (v, p.2)
      | none => acc)
    (d, Source.default)

/-- Modelled from the spec: the Resolver merges the four layers by
precedence into one effective snapshot, iterating the classifier's key
universe (§4.3); the code itself is not in the repository slice. -/
def resolve (ls : Layers) : EffectiveConfig :=
  classifierTable.map (fun p =>
    ⟨p.1, (resolveKey ls p.1 p.2.defaultValue).1,
     (resolveKey ls p.1 p.2.defaultValue).2⟩)

/-- Resolved value of a key in an effective configuration. -/
def EffectiveConfig.valueOf (c : EffectiveConfig) (k : String) : Option Value :=
  (c.find? (·.key = k)).map (·.value)

/-- Winning source of a key in an effective configuration. -/
def EffectiveConfig.sourceOf (c : EffectiveConfig) (k : String) : Option Source :=
  (c.find? (·.key = k)).map (·.source)

/-- The cascade the precedence rule describes: highest defining layer
wins, classifier default when no layer defines the key. -/
def winningPair (ls : Layers) (k : String) (d : Value) : Value × Source :=
  match ls.cli.find k with
  | some v => (v, Source.cli)
  | none =>
    match ls.env.find k with
    | some v => (v, Source.environment)
    | none =>
      match ls.user.find k with
      | some v => (v, Source.user)
      | none =>
        match ls.dflt.find k with
        | some v => (v, Source.default)
        | none => (d, Source.default)

/-- Accumulated validation outcome: blocking errors and advisory
warnings, each a (key, message) pair. -/
structure ValidationResult where
  errors : List (String × String)
  warnings : List (String × String)
  deriving DecidableEq, Repr

/-- Modelled from the spec: the per-key validation rules the classifier
references (§4.2, §4.4); the rule code itself is not in the repository
slice.  Returns an error message when the resolved value violates the
key's rule. -/
def keyRule (k : String) (v : Value) : Option String :=
  if k = "runtime.environment" then
    match v with
    | .vStr "docker" => none
    | .vStr "local" => none
    | _ => some "runtime.environment must be docker or local"
  else if k = "logging.level" then
    match v with
    | .vStr s =>
      if s = "debug" ∨ s = "info" ∨ s = "warning" ∨ s = "error" then none
      else some "invalid log level"
    | _ => some "logging.level must be a string"
  else if k = "server.port" then
    match v with
    | .vInt n => if 1 ≤ n ∧ n ≤ 65535 then none else some "port out of range"
    | _ => some "server.port must be an integer"
  else
    none

/-- Modelled from the spec: the cross-key rule of §4.4 — when
`runtime.environment == local`, `runtime.local.project_root` must be a
non-empty accessible path (filesystem accessibility is abstracted to
non-emptiness of the path string).  Accumulated as errors. -/
def crossRuleErrors (c : EffectiveConfig) : List (String × String) :=
  if c.valueOf "runtime.environment" = some (.vStr "local") then
    match c.valueOf "runtime.local.project_root" with
    | some (.vStr s) =>
      if s = "" then
        [("runtime.local.project_root",
          "runtime.local.project_root is required in local mode")]
      else []
    | _ =>
      [("runtime.local.project_root",
        "runtime.local.project_root is required in local mode")]
  else []

/-- Modelled from the spec: the Validator (§4.4) runs the rule attached
to each key against its resolved value plus the cross-key rules,
accumulating every violation into one result instead of failing fast. -/
def validate (c : EffectiveConfig) : ValidationResult :=
  { errors :=
      c.filterMap (fun e =>
        (keyRule e.key e.value).map (fun m => (e.key, m)))
      ++ crossRuleErrors c,
    warnings := [] }

/-- A partial update submitted by a caller: key → new value. -/
abbrev ChangeRequest : Type := List (String × Value)

/-- The change-application outcome reported to the caller. -/
structure ApplyResult where
  appliedKeys : List String
  requiresRestart : Bool
  validation : ValidationResult
  deriving DecidableEq, Repr

/-- Full outcome of `apply`: the published in-memory snapshot, the
pending snapshot recorded for an external restart (when cold keys
changed), and the `ApplyResult`. -/
structure ApplyOutcome where
  published : EffectiveConfig
  pending : Option EffectiveConfig
  result : ApplyResult

/-- Keys whose resolved value actually changed between two snapshots
over the classifier universe. -/
def changedKeys (prev next : EffectiveConfig) : List String :=
  classifierKeys.filter (fun k => prev.valueOf k ≠ next.valueOf k)

/-- The request layered at CLI precedence on top of the existing
layers (§4.5 step 1). -/
def withRequest (ls : Layers) (req : ChangeRequest) : Layers :=
  { ls with cli := req ++ ls.cli }

/-- Modelled from the spec: the Change Applier (§4.5).  Re-resolves with
the request at CLI precedence, validates, rejects atomically on any
error, otherwise diffs, classifies the changed keys and either publishes
the new snapshot (all hot) or records it as pending with
`requiresRestart=true` (any cold), keeping the previous in-memory value
for cold keys until an external restart. -/
def apply (ls : Layers) (req : ChangeRequest) : ApplyOutcome :=
  let prev := resolve ls
  let next := resolve (withRequest ls req)
  let vr := validate next
  if vr.errors ≠ [] then
    ⟨prev, none, ⟨[], false, vr⟩⟩
  else
    let changed := changedKeys prev next
    if changed.any isCold then
      ⟨prev, some next, ⟨changed, true, vr⟩⟩
    else
      ⟨next, none, ⟨changed, false, vr⟩⟩

/-- Project-memory collaborator summary (external; consumed read-only). -/
structure MemorySummary where
  connected : Bool
  backend : Option String
  dbPath : Option String
  eventsCount : Nat
  filesIndexed : Nat
  deriving DecidableEq, Repr

/-- The on-demand diagnostics aggregate. -/
structure DiagnosticsReport where
  runtimeKind : Option Value
  envOverrides : List String
  validation : ValidationResult
  memory : MemorySummary
  requiresRestart : Bool
  deriving DecidableEq, Repr

/-- Modelled from the spec: the Diagnostics Aggregator (§4.6) —
re-resolves, re-validates, degrades an absent memory collaborator to
`connected=false`, and enumerates environment overrides by key name
only: no value of any key, sensitive ones included, is ever placed in
the report. -/
def diagnose (ls : Layers) (mem : Option MemorySummary)
    (restartPending : Bool) : DiagnosticsReport :=
  { runtimeKind := (resolve ls).valueOf "runtime.environment",
    envOverrides :=
      (resolve ls).filterMap (fun e =>
        if e.source = .environment then some e.key else none),
    validation := validate (resolve ls),
    memory := mem.getD ⟨false, none, none, 0, 0⟩,
    requiresRestart := restartPending }

/-- An abstract filesystem for the user-config loader: path → stored
layer contents. -/
abbrev FileSys : Type := List (String × ConfigLayer)

/-- Outcome of one user-layer load: the returned layer, the filesystem
afterwards, and whether a write happened. -/
structure LoadOutcome where
  layer : ConfigLayer
  fs : FileSys
  wrote : Bool

/-- Modelled from the spec: the user-layer Source Loader (§4.1) — if the
file at `path` is absent, synthesize it with a template copy of the
default layer's values and return an empty-diff layer; if present,
return its contents and perform no write. -/
def loadUser (fs : FileSys) (path : String) (template : ConfigLayer) :
    LoadOutcome :=
  match List.lookup path fs with
  | some layer => ⟨layer, fs, false⟩
  | none => ⟨[], (path, template) :: fs, true⟩

namespace Frontend

/-- `runtime.local` section of the fetched full configuration
(frontend/src/components/features/home/repo-connector.tsx). -/
structure RuntimeLocalCfg where
  project_root : Option String
  deriving DecidableEq, Repr

/-- `runtime` section of the fetched full configuration; `environment`
may be absent (undefined). -/
structure RuntimeCfg where
  environment : Option String
  localCfg : Option RuntimeLocalCfg
  deriving DecidableEq, Repr

/-- The fetched full configuration; the `runtime` field may be absent. -/
structure FullConfig where
  runtime : Option RuntimeCfg
  deriving DecidableEq, Repr

/-- Embeds `fullConfig?.runtime?.environment || 'docker'` from
repo-connector.tsx: optional chaining yields undefined on any missing
link, and `||` replaces any falsy result (undefined or the empty
string) with `"docker"`. -/
def runtimeEnvironment (fullConfig : Option FullConfig) : String :=
  match fullConfig.bind (·.runtime) |>.bind (·.environment) with
  | some s => if s = "" then "docker" else s
  | none => "docker"

/-- The three mutually exclusive render outcomes of `RepoConnector`. -/
inductive RepoConnectorView where
  | loading
  | localSelector
  | repoConnector
  deriving DecidableEq, Repr

/-- Embeds the render dispatch of `RepoConnector`
(repo-connector.tsx): a loading section while the full config is being
fetched, the `LocalProjectSelector` when the resolved runtime
environment is `'local'`, and the repository connector otherwise. -/
def repoConnectorView (isLoadingFullConfig : Bool)
    (fullConfig : Option FullConfig) : RepoConnectorView :=
  if isLoadingFullConfig then .loading
  else if runtimeEnvironment fullConfig = "local" then .localSelector
  else .repoConnector

/-- The value `useFolderPicker.pickFolder` resolves to
(src/unnamed/part_002). -/
structure FolderPickerResult where
  path : Option String
  error : Option String
  deriving DecidableEq, Repr

/-- Outcome of the `window.showDirectoryPicker()` call: the picked
directory handle's name, or a thrown error's name and message. -/
inductive PickOutcome where
  | success (dirName : String)
  | thrown (errName : String) (errMsg : String)
  deriving DecidableEq, Repr

/-- Embeds `pickFolder` from `useFolderPicker` (src/unnamed/part_002):
unsupported API yields an error result; `AbortError` (user cancel)
yields path=null, error=null; any other thrown error yields its
message; success yields the directory name. -/
def pickFolder (isPickerSupported : Bool) (outcome : PickOutcome) :
    FolderPickerResult :=
  if ¬isPickerSupported then
    ⟨none, some "Directory picker not supported in this browser"⟩
  else
    match outcome with
    | .success dirName => ⟨some dirName, none⟩
    | .thrown errName errMsg =>
      if errName = "AbortError" then ⟨none, none⟩
      else ⟨none, some errMsg⟩

end Frontend

/-- The template written on first run: a copy of the default layer's
values, one entry per classifier key. -/
def defaultTemplate : ConfigLayer :=
  classifierTable.map (fun p => (p.1, p.2.defaultValue))

/-- A fresh configuration: all four layers empty, so every key resolves
to its built-in default. -/
def emptyLayers : Layers := ⟨[], [], [], []⟩

/-- Concrete layers exercising user/environment/cli precedence:
logging.level appears in both user and environment, ui.theme in both
user and cli. -/
def demoLayers : Layers :=
  { dflt := defaultTemplate,
    user := [("logging.level", .vStr "debug"), ("ui.theme", .vStr "light")],
    env  := [("logging.level", .vStr "warning"), ("ui.theme", .vStr "green"),
             ("llm.api_base", .vStr "https://llm.internal")],
    cli  := [("ui.theme", .vStr "solarized")] }

/-- `demoLayers`' user layer with an extra shadowed binding appended:
identical contents under first-binding-wins lookup, different list. -/
def demoUser2 : ConfigLayer :=
  [("logging.level", .vStr "debug"), ("ui.theme", .vStr "light"),
   ("logging.level", .vStr "shadowed")]

/-- Same layer contents as `demoLayers` in a different representation. -/
def demoLayers2 : Layers := { demoLayers with user := demoUser2 }

/-- Layers resolving to two individually invalid values. -/
def badLayers : Layers :=
  ⟨[], [("logging.level", .vStr "verbose"),
        ("runtime.environment", .vStr "weird")], [], []⟩

/-- Layers selecting local mode without a project root. -/
def localBadLayers : Layers :=
  ⟨[], [("runtime.environment", .vStr "local")], [], []⟩

/-- A fetched full configuration whose runtime environment is local. -/
def localCfg : Frontend.FullConfig := ⟨some ⟨some "local", none⟩⟩

/-- A change request touching one hot key with a valid value. -/
def hotReq : ChangeRequest := [("logging.level", .vStr "debug")]

/-- The §8 example request: switch to local runtime with a project
root — two cold keys. -/
def coldReq : ChangeRequest :=
  [("runtime.environment", .vStr "local"),
   ("runtime.local.project_root", .vStr "/tmp/proj")]

/-- A request mixing one valid hot key with one invalid value. -/
def mixedBadReq : ChangeRequest :=
  [("llm.model", .vStr "gpt-4o"), ("logging.level", .vStr "verbose")]

/-- Layers whose environment layer sets the sensitive key
`llm.api_base` to one value. -/
def sensLayersA : Layers :=
  ⟨[], [], [("llm.api_base", .vStr "https://a.example")], []⟩

/-- Layers identical to `sensLayersA` except for the sensitive key's
value. -/
def sensLayersB : Layers :=
  ⟨[], [], [("llm.api_base", .vStr "https://b.example")], []⟩

/-! ## Helper lemmas -/

theorem resolveKey_eq_winningPair (ls : Layers) (k : String) (d : Value) :
    resolveKey ls k d = winningPair ls k d := by
  cases h1 : ls.dflt.find k <;> cases h2 : ls.user.find k <;>
    cases h3 : ls.env.find k <;> cases h4 : ls.cli.find k <;>
    simp [resolveKey, winningPair, List.foldl, h1, h2, h3, h4]

/-- The winning source depends only on which layers define the key. -/
theorem resolveKey_snd (ls : Layers) (k : String) (d : Value) :
    (resolveKey ls k d).2 =
      if (ls.cli.find k).isSome then Source.cli
      else if (ls.env.find k).isSome then Source.environment
      else if (ls.user.find k).isSome then Source.user
      else Source.default := by
  rw [resolveKey_eq_winningPair]
  unfold winningPair
  cases ls.cli.find k <;> cases ls.env.find k <;> cases ls.user.find k <;>
    cases ls.dflt.find k <;> rfl

/-- Locating the resolved entry of a key from a classifier lookup. -/
theorem find?_map_lookup {β : Type} (f : String × β → EffEntry)
    (hf : ∀ p, (f p).key = p.1) (tbl : List (String × β)) (k : String)
    (info : β) (h : List.lookup k tbl = some info) :
    (tbl.map f).find? (fun e => e.key = k) = some (f (k, info)) := by
  induction tbl with
  | nil => simp [List.lookup] at h
  | cons p rest ih =>
    obtain ⟨a, b⟩ := p
    rw [List.map_cons]
    by_cases hk : k = a
    · subst hk
      simp only [List.lookup, beq_self_eq_true] at h
      injection h with h
      subst h
      have hpred : decide ((f (k, b)).key = k) = true := by simp [hf]
      simp only [List.find?, hpred]
    · have hbeq : (k == a) = false := beq_eq_false_iff_ne.mpr hk
      simp only [List.lookup, hbeq] at h
      have hpred : decide ((f (a, b)).key = k) = false := by
        simp only [hf, decide_eq_false_iff_not]
        exact fun h' => hk h'.symm
      simp only [List.find?, hpred]
      exact ih h

theorem resolve_keys (ls : Layers) :
    (resolve ls).map (·.key) = classifierKeys := rfl

/-- The resolved entry of any classifier key is its winning pair. -/
theorem resolve_entry (ls : Layers) (k : String) (info : KeyInfo)
    (h : keyInfo k = some info) :
    (resolve ls).valueOf k = some (winningPair ls k info.defaultValue).1 ∧
    (resolve ls).sourceOf k = some (winningPair ls k info.defaultValue).2 := by
  have hres : (resolve ls).find? (fun e => e.key = k) =
      some ⟨k, (resolveKey ls k info.defaultValue).1,
            (resolveKey ls k info.defaultValue).2⟩ :=
    find?_map_lookup (β := KeyInfo)
      (fun p => ⟨p.1, (resolveKey ls p.1 p.2.defaultValue).1,
                 (resolveKey ls p.1 p.2.defaultValue).2⟩)
      (fun _ => rfl) classifierTable k info h
  constructor
  · show ((resolve ls).find? (fun e => e.key = k)).map (·.value) = _
    rw [hres, resolveKey_eq_winningPair]
    rfl
  · show ((resolve ls).find? (fun e => e.key = k)).map (·.source) = _
    rw [hres, resolveKey_eq_winningPair]
    rfl

/-- Either branch of `apply` publishes a full resolver output. -/
theorem apply_published_cases (ls : Layers) (req : ChangeRequest) :
    (apply ls req).published = resolve ls ∨
    (apply ls req).published = resolve (withRequest ls req) := by
  unfold apply
  by_cases h1 : (validate (resolve (withRequest ls req))).errors = []
  · by_cases h2 :
      ((changedKeys (resolve ls) (resolve (withRequest ls req))).any isCold) = true
    · left; simp [h1, h2]
    · right; simp [h1, h2]
  · left; simp [h1]

/-- A pending snapshot recorded by `apply` is the re-resolved one. -/
theorem apply_pending_cases (ls : Layers) (req : ChangeRequest)
    (c : EffectiveConfig) (h : (apply ls req).pending = some c) :
    c = resolve (withRequest ls req) := by
  unfold apply at h
  by_cases h1 : (validate (resolve (withRequest ls req))).errors = []
  · by_cases h2 :
      ((changedKeys (resolve ls) (resolve (withRequest ls req))).any isCold) = true
    · simp [h1, h2] at h
      exact h.symm
    · simp [h1, h2] at h
  · simp [h1] at h

/-- Guarded filterMap is filter-then-project. -/
theorem filterMap_if_key (l : List EffEntry) :
    l.filterMap (fun e =>
      if e.source = Source.environment then some e.key else none) =
    (l.filter (fun e => e.source = Source.environment)).map (·.key) := by
  induction l with
  | nil => rfl
  | cons e rest ih =>
    by_cases hsrc : e.source = Source.environment <;>
      simp [List.filterMap_cons, List.filter_cons, hsrc, ih]

/-! ## Claim theorems -/

/-- C3: Layer precedence in resolve — for every key of the classifier
universe the resolved value is that of the highest-precedence layer
defining the key (precedence default < user < environment < cli) and
that layer's name is recorded as the value's source; in particular, for
a key present in both the user and environment layers the environment
value wins, and for a key present in both the environment layer and a
CLI override the CLI value wins. -/
theorem resolve_precedence (ls : Layers) (k : String) (info : KeyInfo)
    (h : keyInfo k = some info) :
    ((resolve ls).valueOf k = some (winningPair ls k info.defaultValue).1 ∧
     (resolve ls).sourceOf k = some (winningPair ls k info.defaultValue).2) ∧
    (∀ vu ve, ls.user.find k = some vu → ls.env.find k = some ve →
      ls.cli.find k = none →
      (resolve ls).valueOf k = some ve ∧
      (resolve ls).sourceOf k = some Source.environment) ∧
    (∀ ve vc, ls.env.find k = some ve → ls.cli.find k = some vc →
      (resolve ls).valueOf k = some vc ∧
      (resolve ls).sourceOf k = some Source.cli) := by
  obtain ⟨hv, hs⟩ := resolve_entry ls k info h
  refine ⟨⟨hv, hs⟩, ?_, ?_⟩
  · intro vu ve hu he hc
    constructor
    · rw [hv]; simp [winningPair, hu, he, hc]
    · rw [hs]; simp [winningPair, hu, he, hc]
  · intro ve vc he hc
    constructor
    · rw [hv]; simp [winningPair, hc]
    · rw [hs]; simp [winningPair, hc]

/-- C4: Totality of the resolved snapshot — the effective configuration
contains exactly one value per classifier key in table order; a key
defined in no non-default layer takes the default value (the default
layer's value, or the classifier's built-in default when even that
layer omits it) and is never absent; the invariant carries over to the
snapshots published or recorded as pending by `apply`. -/
theorem resolve_totality (ls : Layers) (req : ChangeRequest) :
    ((resolve ls).map (·.key) = classifierKeys) ∧
    (∀ k info, keyInfo k = some info →
      ls.user.find k = none → ls.env.find k = none → ls.cli.find k = none →
      (resolve ls).valueOf k =
        some ((ls.dflt.find k).getD info.defaultValue)) ∧
    ((apply ls req).published.map (·.key) = classifierKeys) ∧
    (∀ c, (apply ls req).pending = some c →
      c.map (·.key) = classifierKeys) := by
  refine ⟨resolve_keys ls, ?_, ?_, ?_⟩
  · intro k info hinfo hu he hc
    obtain ⟨hv, _⟩ := resolve_entry ls k info hinfo
    rw [hv]
    cases hd : ls.dflt.find k <;> simp [winningPair, hu, he, hc, hd]
  · rcases apply_published_cases ls req with h | h <;>
      rw [h] <;> exact resolve_keys _
  · intro c hc
    rw [apply_pending_cases ls req c hc]
    exact resolve_keys _

/-- C5: Determinism of resolution — resolve is a pure function of the
four input layers: two layer sets with identical contents (the same
lookup result for every key in every layer) yield identical snapshots,
and re-running resolve on unchanged inputs yields the same snapshot. -/
theorem resolve_deterministic (ls₁ ls₂ : Layers)
    (hd : ∀ k, ls₁.dflt.find k = ls₂.dflt.find k)
    (hu : ∀ k, ls₁.user.find k = ls₂.user.find k)
    (he : ∀ k, ls₁.env.find k = ls₂.env.find k)
    (hc : ∀ k, ls₁.cli.find k = ls₂.cli.find k) :
    resolve ls₁ = resolve ls₂ ∧ resolve ls₁ = resolve ls₁ := by
  refine ⟨?_, rfl⟩
  unfold resolve
  apply List.map_congr_left
  intro p _
  have hkey : resolveKey ls₁ p.1 p.2.defaultValue =
      resolveKey ls₂ p.1 p.2.defaultValue := by
    rw [resolveKey_eq_winningPair, resolveKey_eq_winningPair]
    unfold winningPair
    rw [hd p.1, hu p.1, he p.1, hc p.1]
  simp [hkey]

/-- C1: Atomic rejection by apply — whenever the re-resolved snapshot
fails validation (errors non-empty), the whole request is rejected: the
previously published effective configuration stays in force unchanged,
nothing is recorded as pending, and the ApplyResult carries the
validation errors with requiresRestart=false and appliedKeys empty, so
no key of the request is partially applied. -/
theorem apply_atomic_rejection (ls : Layers) (req : ChangeRequest)
    (h : (validate (resolve (withRequest ls req))).errors ≠ []) :
    (apply ls req).published = resolve ls ∧
    (apply ls req).pending = none ∧
    (apply ls req).result.requiresRestart = false ∧
    (apply ls req).result.appliedKeys = [] ∧
    (apply ls req).result.validation =
      validate (resolve (withRequest ls req)) := by
  unfold apply
  simp [h]

/-- C2: Hot/cold restart decision — for a valid request (no validation
errors): when no changed key is classified cold, apply publishes the
new snapshot immediately with requiresRestart=false (the new values are
what a subsequent read of the published snapshot sees); when some
changed key is cold, apply returns requiresRestart=true, records the
new snapshot as pending, and the published in-memory configuration
keeps the previous value for every cold key. -/
theorem apply_hot_cold (ls : Layers) (req : ChangeRequest)
    (h : (validate (resolve (withRequest ls req))).errors = []) :
    (((changedKeys (resolve ls) (resolve (withRequest ls req))).any isCold
        = false) →
      (apply ls req).result.requiresRestart = false ∧
      (apply ls req).published = resolve (withRequest ls req) ∧
      (apply ls req).pending = none ∧
      (apply ls req).result.appliedKeys =
        changedKeys (resolve ls) (resolve (withRequest ls req))) ∧
    (((changedKeys (resolve ls) (resolve (withRequest ls req))).any isCold
        = true) →
      (apply ls req).result.requiresRestart = true ∧
      (apply ls req).pending = some (resolve (withRequest ls req)) ∧
      (apply ls req).result.appliedKeys =
        changedKeys (resolve ls) (resolve (withRequest ls req)) ∧
      ∀ k, isCold k = true →
        (apply ls req).published.valueOf k = (resolve ls).valueOf k) := by
  constructor
  · intro hhot
    unfold apply
    simp [h, hhot]
  · intro hcold
    unfold apply
    simp [h, hcold]

/-- C6: Validation accumulates and never fails fast — `validate` is a
total function (it returns a ValidationResult, never an exception) that
carries into its error list the violation of EVERY key whose rule
fails, not just the first one, plus every cross-key violation; in
particular a missing or empty runtime.local.project_root while
runtime.environment is local is reported as a validation error. -/
theorem validate_accumulates (c : EffectiveConfig) :
    (∀ e, e ∈ c → ∀ m, keyRule e.key e.value = some m →
      (e.key, m) ∈ (validate c).errors) ∧
    (∀ err ∈ crossRuleErrors c, err ∈ (validate c).errors) ∧
    (c.valueOf "runtime.environment" = some (.vStr "local") →
      (c.valueOf "runtime.local.project_root" = some (.vStr "") ∨
       c.valueOf "runtime.local.project_root" = none) →
      ("runtime.local.project_root",
       "runtime.local.project_root is required in local mode")
        ∈ (validate c).errors) := by
  refine ⟨?_, ?_, ?_⟩
  · intro e he m hm
    apply List.mem_append_left
    exact List.mem_filterMap.mpr ⟨e, he, by rw [hm]; rfl⟩
  · intro err herr
    exact List.mem_append_right _ herr
  · intro henv hroot
    apply List.mem_append_right
    rcases hroot with hr | hr <;> simp [crossRuleErrors, henv, hr]

/-- C7: Sensitive values never appear in the DiagnosticsReport — the
environment override section lists exactly the names of the keys whose
value resolved from the environment layer (the section holds key names
only, so no value, sensitive or not, is echoed), and two layer states
that differ only in a sensitive key's value (same keys defined in each
layer, equal values for every non-sensitive key) produce identical
environment override sections. -/
theorem diagnose_sensitive (ls₁ ls₂ : Layers) (mem : Option MemorySummary)
    (rp : Bool)
    (_hd : ∀ k, (ls₁.dflt.find k).isSome = (ls₂.dflt.find k).isSome)
    (hu : ∀ k, (ls₁.user.find k).isSome = (ls₂.user.find k).isSome)
    (he : ∀ k, (ls₁.env.find k).isSome = (ls₂.env.find k).isSome)
    (hc : ∀ k, (ls₁.cli.find k).isSome = (ls₂.cli.find k).isSome)
    (_hval : ∀ k, isSensitive k = false →
      ls₁.dflt.find k = ls₂.dflt.find k ∧
      ls₁.user.find k = ls₂.user.find k ∧
      ls₁.env.find k = ls₂.env.find k ∧
      ls₁.cli.find k = ls₂.cli.find k) :
    ((diagnose ls₁ mem rp).envOverrides =
      ((resolve ls₁).filter (fun e => e.source = Source.environment)).map
        (·.key)) ∧
    (diagnose ls₁ mem rp).envOverrides = (diagnose ls₂ mem rp).envOverrides := by
  constructor
  · exact filterMap_if_key (resolve ls₁)
  · have hsrcEq : ∀ (p : String × KeyInfo),
        (resolveKey ls₁ p.1 p.2.defaultValue).2 =
        (resolveKey ls₂ p.1 p.2.defaultValue).2 := by
      intro p
      rw [resolveKey_snd, resolveKey_snd, hu p.1, he p.1, hc p.1]
    show (resolve ls₁).filterMap
        (fun e => if e.source = Source.environment then some e.key else none) =
      (resolve ls₂).filterMap
        (fun e => if e.source = Source.environment then some e.key else none)
    unfold resolve
    rw [List.filterMap_map, List.filterMap_map]
    apply List.filterMap_congr
    intro p _
    simp [Function.comp, hsrcEq p]

/-- C8: First-run user-config creation is idempotent — when the file at
the configured path is absent, the load writes the template (a copy of
the default layer's values) there and returns an empty-diff layer; when
the file is present, the load performs no write and leaves the
filesystem unchanged; hence loading twice leaves the same filesystem as
loading once, and the second load never writes. -/
theorem loadUser_idempotent (fs : FileSys) (path : String)
    (template : ConfigLayer) :
    (List.lookup path fs = none →
      (loadUser fs path template).wrote = true ∧
      (loadUser fs path template).fs = (path, template) :: fs ∧
      (loadUser fs path template).layer = []) ∧
    (∀ l, List.lookup path fs = some l →
      (loadUser fs path template).wrote = false ∧
      (loadUser fs path template).fs = fs ∧
      (loadUser fs path template).layer = l) ∧
    ((loadUser (loadUser fs path template).fs path template).fs =
      (loadUser fs path template).fs ∧
     (loadUser (loadUser fs path template).fs path template).wrote =
      false) := by
  refine ⟨?_, ?_, ?_⟩
  · intro h
    simp [loadUser, h]
  · intro l h
    simp [loadUser, h]
  · cases h : List.lookup path fs with
    | some l => simp [loadUser, h]
    | none =>
      have hhit : List.lookup path ((path, template) :: fs) = some template := by
        simp [List.lookup]
      simp [loadUser, h, hhit]

/-- C9: Implicit frontend default runtime — in RepoConnector, when the
fetched configuration is absent or its runtime.environment field is
undefined, the runtime resolves to "docker"; once loading has finished,
the local project selector is rendered exactly when the resolved
runtime environment equals "local", and the repository connector is
rendered otherwise. -/
theorem repoConnector_runtime_dispatch (cfg : Option Frontend.FullConfig) :
    ((cfg.bind (·.runtime)).bind (·.environment) = none →
      Frontend.runtimeEnvironment cfg = "docker") ∧
    (Frontend.repoConnectorView false cfg = .localSelector ↔
      Frontend.runtimeEnvironment cfg = "local") ∧
    (Frontend.repoConnectorView false cfg ≠ .localSelector →
      Frontend.repoConnectorView false cfg = .repoConnector) := by
  refine ⟨?_, ?_, ?_⟩
  · intro h
    simp [Frontend.runtimeEnvironment, h]
  · by_cases h : Frontend.runtimeEnvironment cfg = "local" <;>
      simp [Frontend.repoConnectorView, h]
  · intro h
    by_cases h' : Frontend.runtimeEnvironment cfg = "local" <;>
      simp [Frontend.repoConnectorView, h'] at h ⊢

/-- C10: Implicit total folder-picker result — pickFolder always
returns a FolderPickerResult (in the embedding it is a total function,
so it never throws): unsupported picker API yields path=null with a
non-null error message; a thrown AbortError (user cancellation) yields
path=null and error=null, so cancellation is not reported as an error;
any other thrown error yields path=null and that error's message; and
success yields the picked directory's name with error=null. -/
theorem pickFolder_total (supported : Bool) (outcome : Frontend.PickOutcome) :
    (supported = false →
      (Frontend.pickFolder supported outcome).path = none ∧
      (Frontend.pickFolder supported outcome).error =
        some "Directory picker not supported in this browser") ∧
    (∀ msg, supported = true → outcome = .thrown "AbortError" msg →
      Frontend.pickFolder supported outcome = ⟨none, none⟩) ∧
    (∀ nm msg, supported = true → outcome = .thrown nm msg →
      nm ≠ "AbortError" →
      Frontend.pickFolder supported outcome = ⟨none, some msg⟩) ∧
    (∀ nm, supported = true → outcome = .success nm →
      Frontend.pickFolder supported outcome = ⟨some nm, none⟩) := by
  refine ⟨?_, ?_, ?_, ?_⟩
  · intro h
    subst h
    exact ⟨rfl, rfl⟩
  · intro msg hs ho
    subst hs
    subst ho
    rfl
  · intro nm msg hs ho hne
    subst hs
    subst ho
    simp [Frontend.pickFolder, hne]
  · intro nm hs ho
    subst hs
    subst ho
    rfl

/-! ## Witnesses -/

/-- C1 witness: a request mixing one valid hot key and one invalid
value is rejected whole on a fresh configuration. -/
theorem apply_atomic_rejection_witness :
    (validate (resolve (withRequest emptyLayers mixedBadReq))).errors ≠ [] ∧
    (apply emptyLayers mixedBadReq).published = resolve emptyLayers ∧
    (apply emptyLayers mixedBadReq).result.appliedKeys = [] ∧
    (apply emptyLayers mixedBadReq).result.requiresRestart = false :=
  ⟨by decide,
   (apply_atomic_rejection emptyLayers mixedBadReq (by decide)).1,
   (apply_atomic_rejection emptyLayers mixedBadReq (by decide)).2.2.2.1,
   (apply_atomic_rejection emptyLayers mixedBadReq (by decide)).2.2.1⟩

/-- C2 witness: a hot-only change applies immediately; the §8 example
cold request records a pending snapshot with requiresRestart=true. -/
theorem apply_hot_cold_witness :
    ((apply emptyLayers hotReq).result.requiresRestart = false ∧
     (apply emptyLayers hotReq).published =
       resolve (withRequest emptyLayers hotReq)) ∧
    ((apply emptyLayers coldReq).result.requiresRestart = true ∧
     (apply emptyLayers coldReq).pending =
       some (resolve (withRequest emptyLayers coldReq))) :=
  ⟨⟨((apply_hot_cold emptyLayers hotReq (by decide)).1 (by decide)).1,
    ((apply_hot_cold emptyLayers hotReq (by decide)).1 (by decide)).2.1⟩,
   ⟨((apply_hot_cold emptyLayers coldReq (by decide)).2 (by decide)).1,
    ((apply_hot_cold emptyLayers coldReq (by decide)).2 (by decide)).2.1⟩⟩

/-- C3 witness: on `demoLayers`, logging.level is in user and
environment (environment wins) and ui.theme is in environment and cli
(cli wins). -/
theorem resolve_precedence_witness :
    ((resolve demoLayers).valueOf "logging.level" =
       some (.vStr "warning") ∧
     (resolve demoLayers).sourceOf "logging.level" =
       some Source.environment) ∧
    ((resolve demoLayers).valueOf "ui.theme" = some (.vStr "solarized") ∧
     (resolve demoLayers).sourceOf "ui.theme" = some Source.cli) :=
  ⟨(resolve_precedence demoLayers "logging.level"
      ⟨.hot, false, .vStr "info"⟩ (by decide)).2.1
      (.vStr "debug") (.vStr "warning") (by decide) (by decide) (by decide),
   (resolve_precedence demoLayers "ui.theme"
      ⟨.hot, false, .vStr "dark"⟩ (by decide)).2.2
      (.vStr "green") (.vStr "solarized") (by decide) (by decide)⟩

/-- C4 witness: the fresh snapshot is total over the classifier keys
and ui.theme, present in no layer, takes its default. -/
theorem resolve_totality_witness :
    (resolve emptyLayers).map (·.key) = classifierKeys ∧
    (resolve emptyLayers).valueOf "ui.theme" = some (.vStr "dark") :=
  ⟨(resolve_totality emptyLayers []).1,
   (resolve_totality emptyLayers []).2.1 "ui.theme"
     ⟨.hot, false, .vStr "dark"⟩ (by decide) (by decide) (by decide)
     (by decide)⟩

/-- C5 witness: two representations of the same layer contents (one
with a shadowed duplicate binding) resolve identically. -/
theorem resolve_deterministic_witness :
    resolve demoLayers = resolve demoLayers2 :=
  (resolve_deterministic demoLayers demoLayers2
    (fun _ => rfl)
    (fun k => by
      by_cases h1 : k = "logging.level"
      · subst h1; rfl
      · by_cases h2 : k = "ui.theme"
        · subst h2; rfl
        · simp [demoLayers, demoLayers2, demoUser2, ConfigLayer.find,
            List.lookup, beq_eq_false_iff_ne.mpr h1,
            beq_eq_false_iff_ne.mpr h2])
    (fun _ => rfl) (fun _ => rfl)).1

/-- C6 witness: a snapshot with two violated key rules reports both
errors, and local mode without a project root reports the cross-key
error. -/
theorem validate_accumulates_witness :
    ("logging.level", "invalid log level")
      ∈ (validate (resolve badLayers)).errors ∧
    ("runtime.environment", "runtime.environment must be docker or local")
      ∈ (validate (resolve badLayers)).errors ∧
    ("runtime.local.project_root",
     "runtime.local.project_root is required in local mode")
      ∈ (validate (resolve localBadLayers)).errors :=
  ⟨(validate_accumulates (resolve badLayers)).1
      ⟨"logging.level", .vStr "verbose", .user⟩ (by decide)
      "invalid log level" (by decide),
   (validate_accumulates (resolve badLayers)).1
      ⟨"runtime.environment", .vStr "weird", .user⟩ (by decide)
      "runtime.environment must be docker or local" (by decide),
   (validate_accumulates (resolve localBadLayers)).2.2
      (by decide) (Or.inl (by decide))⟩

/-- C7 witness: two states that differ only in the sensitive
llm.api_base value have identical environment override sections, which
list the key name only. -/
theorem diagnose_sensitive_witness :
    (diagnose sensLayersA none false).envOverrides = ["llm.api_base"] ∧
    (diagnose sensLayersA none false).envOverrides =
      (diagnose sensLayersB none false).envOverrides := by
  have he : ∀ k, ((sensLayersA.env.find k).isSome
      = (sensLayersB.env.find k).isSome) := by
    intro k
    by_cases h : k = "llm.api_base"
    · subst h; rfl
    · simp [sensLayersA, sensLayersB, ConfigLayer.find, List.lookup,
        beq_eq_false_iff_ne.mpr h]
  have hval : ∀ k, isSensitive k = false →
      sensLayersA.dflt.find k = sensLayersB.dflt.find k ∧
      sensLayersA.user.find k = sensLayersB.user.find k ∧
      sensLayersA.env.find k = sensLayersB.env.find k ∧
      sensLayersA.cli.find k = sensLayersB.cli.find k := by
    intro k hk
    refine ⟨rfl, rfl, ?_, rfl⟩
    by_cases h : k = "llm.api_base"
    · subst h
      exact absurd hk (by decide)
    · simp [sensLayersA, sensLayersB, ConfigLayer.find, List.lookup,
        beq_eq_false_iff_ne.mpr h]
  refine ⟨?_, ?_⟩
  · exact ((diagnose_sensitive sensLayersA sensLayersB none false
      (fun _ => rfl) (fun _ => rfl) he (fun _ => rfl) hval).1).trans
      (by decide)
  · exact (diagnose_sensitive sensLayersA sensLayersB none false
      (fun _ => rfl) (fun _ => rfl) he (fun _ => rfl) hval).2

/-- C8 witness: with no file present the first load writes the default
template once and a second load performs no write. -/
theorem loadUser_idempotent_witness :
    (loadUser [] "~/.openhands/config.toml" defaultTemplate).wrote
      = true ∧
    (loadUser [] "~/.openhands/config.toml" defaultTemplate).fs =
      [("~/.openhands/config.toml", defaultTemplate)] ∧
    (loadUser (loadUser [] "~/.openhands/config.toml" defaultTemplate).fs
       "~/.openhands/config.toml" defaultTemplate).wrote = false ∧
    (loadUser (loadUser [] "~/.openhands/config.toml" defaultTemplate).fs
       "~/.openhands/config.toml" defaultTemplate).fs =
      (loadUser [] "~/.openhands/config.toml" defaultTemplate).fs :=
  ⟨((loadUser_idempotent [] "~/.openhands/config.toml"
      defaultTemplate).1 rfl).1,
   ((loadUser_idempotent [] "~/.openhands/config.toml"
      defaultTemplate).1 rfl).2.1,
   (loadUser_idempotent [] "~/.openhands/config.toml"
      defaultTemplate).2.2.2,
   (loadUser_idempotent [] "~/.openhands/config.toml"
      defaultTemplate).2.2.1⟩

/-- C9 witness: an absent configuration resolves to docker and renders
the repository connector; a local configuration renders the local
project selector. -/
theorem repoConnector_runtime_dispatch_witness :
    Frontend.runtimeEnvironment none = "docker" ∧
    Frontend.repoConnectorView false (some localCfg) =
      .localSelector ∧
    Frontend.repoConnectorView false none = .repoConnector :=
  ⟨(repoConnector_runtime_dispatch none).1 rfl,
   (repoConnector_runtime_dispatch (some localCfg)).2.1.mpr (by decide),
   (repoConnector_runtime_dispatch none).2.2 (by decide)⟩

/-- C10 witness: the four folder-picker outcomes at concrete inputs. -/
theorem pickFolder_total_witness :
    (Frontend.pickFolder false (.success "proj")).path = none ∧
    Frontend.pickFolder true (.thrown "AbortError" "cancelled") =
      ⟨none, none⟩ ∧
    Frontend.pickFolder true (.thrown "TypeError" "boom") =
      ⟨none, some "boom"⟩ ∧
    Frontend.pickFolder true (.success "proj") = ⟨some "proj", none⟩ :=
  ⟨((pickFolder_total false (.success "proj")).1 rfl).1,
   (pickFolder_total true (.thrown "AbortError" "cancelled")).2.1
     "cancelled" rfl rfl,
   (pickFolder_total true (.thrown "TypeError" "boom")).2.2.1
     "TypeError" "boom" rfl rfl (by decide),
   (pickFolder_total true (.success "proj")).2.2.2 "proj" rfl rfl⟩

end OpenHands
